import Mathlib

/-!
Verification of the TS-Template repository fragment: the GitHub OAuth
strategy template (`src/config/strategies/github.strategy.template.ts`)
and the JWT helper (`src/helpers/jwtHelper.ts`).

The strategy's verify callback is embedded as a pure function from the
profile and the persistence layer's responses to a trace of its effects:
the continuation invocations (`done` calls), the records created and the
records saved.  JavaScript truthiness on strings (empty string is falsy)
is modelled explicitly; an awaited persistence call that throws is
modelled by `Except.error` propagating to the surrounding try/catch.
-/

/-- Helper for `jsSplitSpace`: structural recursion over the character
list, cutting at every single space as JavaScript `split(' ')` does. -/
def splitSpaceAux : List Char → List Char → List String
  | [], acc => [String.mk acc.reverse]
  | c :: rest, acc =>
    if c = ' ' then String.mk acc.reverse :: splitSpaceAux rest []
    else splitSpaceAux rest (c :: acc)

/-- JavaScript `s.split(' ')`: every single space is a cut point and
empty pieces are kept (`"" → [""]`, `"a  b" → ["a", "", "b"]`). -/
def jsSplitSpace (s : String) : List String :=
  splitSpaceAux s.data []

/-- JavaScript `parts.join(' ')`. -/
def joinSpace : List String → String
  | [] => ""
  | [s] => s
  | s :: rest => s ++ " " ++ joinSpace rest

/-- JavaScript truthiness of a `string | undefined` value:
`undefined` and the empty string are falsy. -/
def truthyStr : Option String → Bool
  | none => false
  | some s => !s.isEmpty

/-- JavaScript `a || b` on two `string | undefined` values. -/
def jsOr (a b : Option String) : Option String :=
  if truthyStr a then a else b

/-- JavaScript `a || b` where the right operand is a plain string. -/
def jsOrStr (a : Option String) (b : String) : String :=
  match a with
  | none => b
  | some s => if s.isEmpty then b else s

/-- The external provider's profile as the verify callback reads it
(`id`, `displayName`, `emails`, `photos` destructured, plus the flat
GitHub-specific fields reached through `profile as any`).  An absent or
empty `emails`/`photos` array are both modelled by `[]`; an entry's
`value` is the string itself. -/
structure Profile where
  id : Nat
  displayName : Option String
  emails : List String
  photos : List String
  login : Option String
  email : Option String
  avatarUrl : Option String
  location : Option String
deriving DecidableEq

/-- The local persisted user entity (the fields the strategy reads or
writes).  `none` models an absent / null field. -/
structure UserRecord where
  email : String
  name : String
  firstName : String
  lastName : String
  avatar : Option String
  provider : Option String
  providerId : Option String
  verified : Bool
  status : String
  contact : String
  location : String
  password : Option String
deriving DecidableEq

/-- One invocation of the continuation `done`: `done(error)` on failure,
`done(null, user)` on success. -/
inductive DoneCall where
  | err (e : String)
  | ok (user : UserRecord)
deriving DecidableEq

/-- The observable effects of one run of the verify callback: the `done`
invocations in order, the field sets successfully passed to
`User.create`, and the records successfully saved via `user.save()`. -/
structure HandshakeTrace where
  doneCalls : List DoneCall
  creates : List UserRecord
  saves : List UserRecord
deriving DecidableEq

/-- The persistence layer as the callback awaits it; each operation
either returns (`Except.ok`) or throws (`Except.error`). -/
structure DB where
  findOne : String → Except String (Option UserRecord)
  create : UserRecord → Except String UserRecord
  save : UserRecord → Except String Unit

/-- The line `const email = emails?.[0]?.value || (profile as any).email`
followed by the `if (!email)` guard: `some e` exactly when the callback
proceeds with the (necessarily non-empty) resolved email `e`. -/
def resolvedEmail (p : Profile) : Option String :=
  let e := jsOr p.emails.head? p.email
  if truthyStr e then e else none

/-- The field set passed to `User.create` on the creation path. -/
def newUserFromProfile (email : String) (p : Profile) : UserRecord :=
  { email := email
    name := jsOrStr p.displayName (jsOrStr p.login "User")
    firstName :=
      match p.displayName with
      | none => "User"
      | some d => jsOrStr (some ((jsSplitSpace d).headD "")) "User"
    lastName :=
      match p.displayName with
      | none => ""
      | some d => joinSpace ((jsSplitSpace d).drop 1)
    avatar := jsOr p.photos.head? p.avatarUrl
    provider := some "github"
    providerId := some (toString p.id)
    verified := true
    status := "active"
    contact := ""
    location := jsOrStr p.location ""
    password := none }

/-- The backfill mutation applied to an existing record lacking a
`providerId`: set `provider` and `providerId`, and set `avatar` only when
it is currently falsy and the profile offers a truthy one. -/
def backfillUser (user : UserRecord) (p : Profile) : UserRecord :=
  let av := jsOr p.photos.head? p.avatarUrl
  { user with
    provider := some "github"
    providerId := some (toString p.id)
    avatar := if !truthyStr user.avatar && truthyStr av then av else user.avatar }

/-- The body of the `try` block of the verify callback: an uncaught
exception of an awaited persistence call surfaces as `Except.error`. -/
def githubVerifyInner (p : Profile) (db : DB) : Except String HandshakeTrace :=
  match resolvedEmail p with
  | none =>
    Except.ok ⟨[DoneCall.err "No email provided by GitHub"], [], []⟩
  | some email =>
    match db.findOne email with
    | Except.error e => Except.error e
    | Except.ok none =>
      match db.create (newUserFromProfile email p) with
      | Except.error e => Except.error e
      | Except.ok u =>
        Except.ok ⟨[DoneCall.ok u], [newUserFromProfile email p], []⟩
    | Except.ok (some user) =>
      if truthyStr user.providerId then
        Except.ok ⟨[DoneCall.ok user], [], []⟩
      else
        match db.save (backfillUser user p) with
        | Except.error e => Except.error e
        | Except.ok _ =>
          Except.ok ⟨[DoneCall.ok (backfillUser user p)], [], [backfillUser user p]⟩

/-- The whole verify callback, try/catch included: an exception from the
try block reaches `catch (error) { return done(error) }`. -/
def githubVerify (p : Profile) (db : DB) : HandshakeTrace :=
  match githubVerifyInner p db with
  | Except.ok t => t
  | Except.error e => ⟨[DoneCall.err e], [], []⟩

/-- The `config.oauth.github` block (strings default to `''` when the
environment variable is absent, per the template's config snippet). -/
structure GithubCreds where
  clientID : String
  clientSecret : String
  callbackURL : String
deriving DecidableEq

/-- A constructed `GitHubStrategy` instance: the options it was built
with (the verify callback is the fixed `githubVerify`). -/
structure GitHubStrategy where
  clientID : String
  clientSecret : String
  callbackURL : String
deriving DecidableEq

/-- The module-level conditional construction:
`if (config.oauth.github && clientID && clientSecret) { new Strategy }`,
with `githubStrategy` left `null` otherwise. -/
def githubStrategy (github : Option GithubCreds) : Option GitHubStrategy :=
  match github with
  | none => none
  | some g =>
    if truthyStr (some g.clientID) && truthyStr (some g.clientSecret) then
      some ⟨g.clientID, g.clientSecret, g.callbackURL⟩
    else
      none

/-- Modelled from the spec: the `jsonwebtoken` library behind
`jwt.sign`/`jwt.verify` is an external dependency, not code of this
repository, so the signed token string is modelled symbolically as the
payload, the signing secret and the absolute expiry instant it encodes. -/
structure SignedToken (α : Type) where
  payload : α
  secret : String
  exp : Nat
deriving DecidableEq

/-- Decimal digit value of a character, `none` for a non-digit. -/
def digitVal (c : Char) : Option Nat :=
  if c.isDigit then some (c.toNat - 48) else none

/-- Helper for `parseNatDigits`: left-to-right accumulation. -/
def parseNatAux : List Char → Nat → Option Nat
  | [], n => some n
  | c :: cs, n =>
    match digitVal c with
    | none => none
    | some d => parseNatAux cs (10 * n + d)

/-- A non-empty all-digit character list as a number, else `none`. -/
def parseNatDigits : List Char → Option Nat
  | [] => none
  | cs => parseNatAux cs 0

/-- Modelled from the spec: the duration expressions the spec mentions
(`"1h"`, `"7d"`, ...) as seconds — a digit string followed by a unit. -/
def parseExpire (s : String) : Option Nat :=
  match s.data.reverse with
  | [] => none
  | u :: revDigits =>
    match parseNatDigits revDigits.reverse with
    | none => none
    | some n =>
      if u = 's' then some n
      else if u = 'm' then some (n * 60)
      else if u = 'h' then some (n * 3600)
      else if u = 'd' then some (n * 86400)
      else none

/-- Modelled from the spec: `createToken(payload, secret, expireTime)` at
issue instant `now` signs the payload with the secret and an expiry of
`now` plus the parsed duration; an unparsable duration yields `none`
(the underlying sign call raises). -/
def createToken (α : Type) (payload : α) (secret : String)
    (expireTime : String) (now : Nat) : Option (SignedToken α) :=
  (parseExpire expireTime).map fun d => ⟨payload, secret, now + d⟩

/-- Why verification rejects a token. -/
inductive VerifyError where
  | invalidSignature
  | expired
deriving DecidableEq

/-- Modelled from the spec: `verifyToken(token, secret)` at instant `now`
returns the payload when the token was signed with `secret` and `now` is
still before the expiry instant; otherwise it raises, classified as
invalid signature or expired. -/
def verifyToken (α : Type) (t : SignedToken α) (secret : String)
    (now : Nat) : Except VerifyError α :=
  if t.secret = secret then
    if t.exp ≤ now then Except.error VerifyError.expired
    else Except.ok t.payload
  else
    Except.error VerifyError.invalidSignature

/-! ## Concrete inputs for the witnesses -/

/-- A profile with a resolvable email, used by C2's witness. -/
def profileC2 : Profile :=
  ⟨7, some "Ada Lovelace", ["ada@example.com"], ["http://img.example/a.png"],
   some "ada99", none, none, some "Earth"⟩

/-- A persistence layer that finds nothing, used by C2's witness. -/
def dbC2 : DB :=
  ⟨fun _ => Except.ok none, fun r => Except.ok r, fun _ => Except.ok ()⟩

/-- An existing unlinked record, used by C4's witness. -/
def userC4 : UserRecord :=
  ⟨"ada@example.com", "Ada", "Ada", "", none, none, none,
   true, "active", "", "", some "hashedpw"⟩

/-- A profile matching `userC4`, used by C4's witness. -/
def profileC4 : Profile :=
  ⟨7, some "Ada Lovelace", ["ada@example.com"], ["http://img.example/a.png"],
   none, none, none, none⟩

/-- A persistence layer that finds `userC4`, used by C4's witness. -/
def dbC4 : DB :=
  ⟨fun _ => Except.ok (some userC4), fun r => Except.ok r, fun _ => Except.ok ()⟩

/-- An existing already-linked record, used by C5's witness. -/
def userC5 : UserRecord :=
  ⟨"ada@example.com", "Ada", "Ada", "", some "http://img.example/old.png",
   some "github", some "42", true, "active", "", "", none⟩

/-- A profile matching `userC5`, used by C5's witness. -/
def profileC5 : Profile :=
  ⟨7, some "Ada Lovelace", ["ada@example.com"], [], none, none, none, none⟩

/-- A persistence layer that finds `userC5`, used by C5's witness. -/
def dbC5 : DB :=
  ⟨fun _ => Except.ok (some userC5), fun r => Except.ok r, fun _ => Except.ok ()⟩

/-- A profile with no email anywhere, used by C6's witness. -/
def profileC6 : Profile :=
  ⟨7, some "Ada Lovelace", [], [], some "ada99", none, none, none⟩

/-- An inert persistence layer, used by C6's witness. -/
def dbC6 : DB :=
  ⟨fun _ => Except.ok none, fun r => Except.ok r, fun _ => Except.ok ()⟩

/-- A profile with a resolvable email, used by C8's witness. -/
def profileC8 : Profile :=
  ⟨7, some "Ada Lovelace", ["ada@example.com"], [], none, none, none, none⟩

/-- A persistence layer whose lookup throws, used by C8's witness. -/
def dbC8 : DB :=
  ⟨fun _ => Except.error "db down", fun r => Except.ok r, fun _ => Except.ok ()⟩

/-! ## The claims -/

/-- Claim C1: for every payload, secret and the expiry duration "1h",
verifying the created token with the same secret before the expiry
instant returns the original payload. -/
theorem claim_C1_token_roundtrip (α : Type) (payload : α) (secret : String)
    (issuedAt t : Nat) (hbefore : t < issuedAt + 3600) :
    ∃ tok, createToken α payload secret "1h" issuedAt = some tok ∧
      verifyToken α tok secret t = Except.ok payload := by
  refine ⟨⟨payload, secret, issuedAt + 3600⟩, ?_, ?_⟩
  · have h : parseExpire "1h" = some 3600 := by decide
    unfold createToken
    rw [h]
    rfl
  · show (if secret = secret then
        if issuedAt + 3600 ≤ t then Except.error VerifyError.expired
        else Except.ok payload
      else Except.error VerifyError.invalidSignature) = Except.ok payload
    rw [if_pos rfl, if_neg (by omega)]

theorem claim_C1_token_roundtrip_witness :
    ∃ tok, createToken Nat 7 "topsecret" "1h" 1000 = some tok ∧
      verifyToken Nat tok "topsecret" 2000 = Except.ok 7 :=
  claim_C1_token_roundtrip Nat 7 "topsecret" 1000 2000 (by decide)

/-- Claim C7: verification rejects a token signed with a different
secret as an invalid signature, and rejects a token whose expiry instant
has passed as expired; in both cases no payload is returned. -/
theorem claim_C7_verify_rejects (α : Type) (payload : α)
    (secret other expireTime : String) (issuedAt d t1 t2 : Nat)
    (tok : SignedToken α)
    (hdur : parseExpire expireTime = some d)
    (hsign : createToken α payload secret expireTime issuedAt = some tok) :
    (other ≠ secret →
      verifyToken α tok other t1 = Except.error VerifyError.invalidSignature) ∧
    (issuedAt + d ≤ t2 →
      verifyToken α tok secret t2 = Except.error VerifyError.expired) := by
  unfold createToken at hsign
  rw [hdur] at hsign
  have htok : tok = ⟨payload, secret, issuedAt + d⟩ := by
    cases hsign
    rfl
  subst htok
  constructor
  · intro hne
    unfold verifyToken
    rw [if_neg (fun hc => hne hc.symm)]
  · intro hexp
    unfold verifyToken
    rw [if_pos rfl, if_pos hexp]

theorem claim_C7_verify_rejects_witness :
    verifyToken Nat ⟨3, "right", 3600⟩ "wrong" 0
      = Except.error VerifyError.invalidSignature ∧
    verifyToken Nat ⟨3, "right", 3600⟩ "right" 5000
      = Except.error VerifyError.expired :=
  ⟨(claim_C7_verify_rejects Nat 3 "right" "wrong" "1h" 0 3600 0 5000
      ⟨3, "right", 3600⟩ (by decide) rfl).1 (by decide),
   (claim_C7_verify_rejects Nat 3 "right" "wrong" "1h" 0 3600 0 5000
      ⟨3, "right", 3600⟩ (by decide) rfl).2 (by decide)⟩

/-- Claim C3 counterexample: with a non-empty client identifier and
client secret but an empty callback address, the strategy is still
constructed — the module never checks `callbackURL`, refuting "only if
all three are present and non-empty". -/
theorem claim_C3_counterexample :
    (githubStrategy (some ⟨"id123", "secret456", ""⟩)).isSome = true ∧
    (GithubCreds.mk "id123" "secret456" "").callbackURL = "" := by
  exact ⟨rfl, rfl⟩

/-- Claim C3 as amended: the strategy object is constructed (non-null)
if and only if the provider config block is present and the client
identifier and client secret are both non-empty; the callback address is
not checked. -/
theorem claim_C3_strategy_construction (github : Option GithubCreds) :
    (githubStrategy github).isSome = true ↔
      ∃ g, github = some g ∧ g.clientID ≠ "" ∧ g.clientSecret ≠ "" := by
  cases github with
  | none =>
    simp [githubStrategy]
  | some g =>
    have hred : githubStrategy (some g) =
        if (!g.clientID.isEmpty && !g.clientSecret.isEmpty) = true then
          some ⟨g.clientID, g.clientSecret, g.callbackURL⟩
        else none := rfl
    rw [hred]
    by_cases hcond : (!g.clientID.isEmpty && !g.clientSecret.isEmpty) = true
    · rw [if_pos hcond]
      simp only [Option.isSome_some, true_iff]
      refine ⟨g, rfl, ?_, ?_⟩
      · rw [Ne, ← String.isEmpty_iff]
        simp only [Bool.and_eq_true, Bool.not_eq_true'] at hcond
        simp [hcond.1]
      · rw [Ne, ← String.isEmpty_iff]
        simp only [Bool.and_eq_true, Bool.not_eq_true'] at hcond
        simp [hcond.2]
    · rw [if_neg hcond]
      simp only [Option.isSome_none, Bool.false_eq_true, false_iff]
      rintro ⟨c, hc, hid, hsec⟩
      cases hc
      rw [Ne, ← String.isEmpty_iff] at hid hsec
      apply hcond
      have h1 : g.clientID.isEmpty = false := Bool.eq_false_iff.mpr hid
      have h2 : g.clientSecret.isEmpty = false := Bool.eq_false_iff.mpr hsec
      rw [h1, h2]
      rfl

/-- Claim C2: when an email is resolved and no record with it exists,
exactly one record is created, and it has `password = null`,
`verified = true` and `provider = "github"`; `done` gets the created
user. -/
theorem claim_C2_creation (p : Profile) (db : DB) (email : String)
    (u : UserRecord)
    (hemail : resolvedEmail p = some email)
    (hfind : db.findOne email = Except.ok none)
    (hcreate : db.create (newUserFromProfile email p) = Except.ok u) :
    githubVerify p db =
      ⟨[DoneCall.ok u], [newUserFromProfile email p], []⟩ ∧
    (newUserFromProfile email p).password = none ∧
    (newUserFromProfile email p).verified = true ∧
    (newUserFromProfile email p).provider = some "github" := by
  refine ⟨?_, rfl, rfl, rfl⟩
  unfold githubVerify githubVerifyInner
  simp only [hemail, hfind, hcreate]

theorem claim_C2_creation_witness :
    githubVerify profileC2 dbC2 =
      ⟨[DoneCall.ok (newUserFromProfile "ada@example.com" profileC2)],
       [newUserFromProfile "ada@example.com" profileC2], []⟩ ∧
    (newUserFromProfile "ada@example.com" profileC2).password = none ∧
    (newUserFromProfile "ada@example.com" profileC2).verified = true ∧
    (newUserFromProfile "ada@example.com" profileC2).provider = some "github" :=
  claim_C2_creation profileC2 dbC2 "ada@example.com"
    (newUserFromProfile "ada@example.com" profileC2) rfl rfl rfl

/-- Claim C4: when the resolved email matches an existing record lacking
`providerId`, exactly one save occurs, `provider` and `providerId`
become the tag and the stringified external id, `avatar` changes only if
it was previously falsy, and every other field is unchanged. -/
theorem claim_C4_backfill (p : Profile) (db : DB) (email : String)
    (user : UserRecord)
    (hemail : resolvedEmail p = some email)
    (hfind : db.findOne email = Except.ok (some user))
    (hunlinked : truthyStr user.providerId = false)
    (hsave : db.save (backfillUser user p) = Except.ok ()) :
    githubVerify p db =
      ⟨[DoneCall.ok (backfillUser user p)], [], [backfillUser user p]⟩ ∧
    (backfillUser user p).provider = some "github" ∧
    (backfillUser user p).providerId = some (toString p.id) ∧
    ((backfillUser user p).avatar ≠ user.avatar →
      truthyStr user.avatar = false) ∧
    (backfillUser user p).email = user.email ∧
    (backfillUser user p).name = user.name ∧
    (backfillUser user p).firstName = user.firstName ∧
    (backfillUser user p).lastName = user.lastName ∧
    (backfillUser user p).verified = user.verified ∧
    (backfillUser user p).status = user.status ∧
    (backfillUser user p).contact = user.contact ∧
    (backfillUser user p).location = user.location ∧
    (backfillUser user p).password = user.password := by
  refine ⟨?_, rfl, rfl, ?_, rfl, rfl, rfl, rfl, rfl, rfl, rfl, rfl, rfl⟩
  · unfold githubVerify githubVerifyInner
    simp only [hemail, hfind, hunlinked, hsave, Bool.false_eq_true, if_false]
  · intro hne
    by_cases h : truthyStr user.avatar
    · exfalso
      apply hne
      show (if !truthyStr user.avatar && _ then _ else user.avatar) = user.avatar
      rw [h]
      rfl
    · exact Bool.eq_false_iff.mpr h

theorem claim_C4_backfill_witness :
    githubVerify profileC4 dbC4 =
      ⟨[DoneCall.ok (backfillUser userC4 profileC4)], [],
       [backfillUser userC4 profileC4]⟩ ∧
    (backfillUser userC4 profileC4).provider = some "github" ∧
    (backfillUser userC4 profileC4).providerId = some (toString profileC4.id) ∧
    ((backfillUser userC4 profileC4).avatar ≠ userC4.avatar →
      truthyStr userC4.avatar = false) ∧
    (backfillUser userC4 profileC4).email = userC4.email ∧
    (backfillUser userC4 profileC4).name = userC4.name ∧
    (backfillUser userC4 profileC4).firstName = userC4.firstName ∧
    (backfillUser userC4 profileC4).lastName = userC4.lastName ∧
    (backfillUser userC4 profileC4).verified = userC4.verified ∧
    (backfillUser userC4 profileC4).status = userC4.status ∧
    (backfillUser userC4 profileC4).contact = userC4.contact ∧
    (backfillUser userC4 profileC4).location = userC4.location ∧
    (backfillUser userC4 profileC4).password = userC4.password :=
  claim_C4_backfill profileC4 dbC4 "ada@example.com" userC4 rfl rfl rfl rfl

/-- Claim C5: when the resolved email matches an existing record whose
`providerId` is already set, nothing is created or saved and `done` gets
that record unchanged. -/
theorem claim_C5_linked_no_writes (p : Profile) (db : DB) (email : String)
    (user : UserRecord)
    (hemail : resolvedEmail p = some email)
    (hfind : db.findOne email = Except.ok (some user))
    (hlinked : truthyStr user.providerId = true) :
    githubVerify p db = ⟨[DoneCall.ok user], [], []⟩ := by
  unfold githubVerify githubVerifyInner
  simp only [hemail, hfind, hlinked, if_true]

theorem claim_C5_linked_no_writes_witness :
    githubVerify profileC5 dbC5 = ⟨[DoneCall.ok userC5], [], []⟩ :=
  claim_C5_linked_no_writes profileC5 dbC5 "ada@example.com" userC5 rfl rfl rfl

/-- Claim C6: with no email entry and no flat fallback email field, the
continuation is failed with the no-email error and nothing is created or
saved, whatever the persistence layer would do. -/
theorem claim_C6_no_email (p : Profile) (db : DB)
    (hemails : p.emails = [])
    (hflat : p.email = none) :
    githubVerify p db =
      ⟨[DoneCall.err "No email provided by GitHub"], [], []⟩ := by
  have h : resolvedEmail p = none := by
    unfold resolvedEmail jsOr
    rw [hemails, hflat]
    rfl
  unfold githubVerify githubVerifyInner
  rw [h]

theorem claim_C6_no_email_witness :
    githubVerify profileC6 dbC6 =
      ⟨[DoneCall.err "No email provided by GitHub"], [], []⟩ :=
  claim_C6_no_email profileC6 dbC6 rfl rfl

/-- Claim C8: any exception of the try block (lookup, create or save)
reaches the catch, which fails the continuation with that very error;
no successful write is reported and nothing propagates further. -/
theorem claim_C8_exception_to_done (p : Profile) (db : DB) (e : String)
    (hthrow : githubVerifyInner p db = Except.error e) :
    githubVerify p db = ⟨[DoneCall.err e], [], []⟩ := by
  unfold githubVerify
  rw [hthrow]

theorem claim_C8_exception_to_done_witness :
    githubVerify profileC8 dbC8 = ⟨[DoneCall.err "db down"], [], []⟩ :=
  claim_C8_exception_to_done profileC8 dbC8 "db down" rfl

/-- Claim C10: on every path — no resolvable email, creation, backfill,
already linked, or a caught exception — the continuation is invoked
exactly once. -/
theorem claim_C10_done_exactly_once (p : Profile) (db : DB) :
    (githubVerify p db).doneCalls.length = 1 := by
  unfold githubVerify
  cases hinner : githubVerifyInner p db with
  | error e => rfl
  | ok t =>
    show t.doneCalls.length = 1
    unfold githubVerifyInner at hinner
    repeat first
      | split at hinner
      | (cases hinner; rfl)
      | cases hinner

/-- Claim C9: on the creation path, `name` is the display name when
truthy, else the provider `login` when truthy, else "User"; `firstName`
is the first space-delimited token of the display name when non-empty,
else "User"; `lastName` is the remaining tokens joined by a space, else
the empty string.  In particular "Ada Lovelace" gives firstName "Ada"
and lastName "Lovelace", and an absent display name with login "ada99"
gives name "ada99" and firstName "User". -/
theorem claim_C9_name_derivation (email : String) (p : Profile) :
    (∀ d, p.displayName = some d → d ≠ "" →
      (newUserFromProfile email p).name = d) ∧
    (∀ l, p.displayName = none → p.login = some l → l ≠ "" →
      (newUserFromProfile email p).name = l) ∧
    (p.displayName = none → p.login = none →
      (newUserFromProfile email p).name = "User") ∧
    (∀ d, p.displayName = some d → (jsSplitSpace d).headD "" ≠ "" →
      (newUserFromProfile email p).firstName = (jsSplitSpace d).headD "") ∧
    (p.displayName = none →
      (newUserFromProfile email p).firstName = "User" ∧
      (newUserFromProfile email p).lastName = "") ∧
    (∀ d, p.displayName = some d →
      (newUserFromProfile email p).lastName =
        joinSpace ((jsSplitSpace d).drop 1)) ∧
    (p.displayName = some "Ada Lovelace" →
      (newUserFromProfile email p).firstName = "Ada" ∧
      (newUserFromProfile email p).lastName = "Lovelace") ∧
    (p.displayName = none → p.login = some "ada99" →
      (newUserFromProfile email p).name = "ada99" ∧
      (newUserFromProfile email p).firstName = "User") := by
  refine ⟨?_, ?_, ?_, ?_, ?_, ?_, ?_, ?_⟩
  · intro d hd hne
    simp only [newUserFromProfile, hd, jsOrStr]
    rw [if_neg (fun h => hne ((String.isEmpty_iff _).mp h))]
  · intro l hd hl hne
    simp only [newUserFromProfile, hd, hl, jsOrStr]
    rw [if_neg (fun h => hne ((String.isEmpty_iff _).mp h))]
  · intro hd hl
    simp only [newUserFromProfile, hd, hl, jsOrStr]
  · intro d hd hne
    simp only [newUserFromProfile, hd, jsOrStr]
    rw [if_neg (fun h => hne ((String.isEmpty_iff _).mp h))]
  · intro hd
    exact ⟨by simp only [newUserFromProfile, hd],
           by simp only [newUserFromProfile, hd]⟩
  · intro d hd
    simp only [newUserFromProfile, hd]
  · intro hd
    exact ⟨by simp only [newUserFromProfile, hd]; decide,
           by simp only [newUserFromProfile, hd]; decide⟩
  · intro hd hl
    exact ⟨by simp only [newUserFromProfile, hd, hl, jsOrStr]; decide,
           by simp only [newUserFromProfile, hd, hl, jsOrStr]⟩
